import Mathlib

/-!
Verification of the Cleaning Tracker business logic.

The development shallowly embeds the pure business-logic core of the
repository (helpers.py, webapp.py, and the duplicated helpers inside the
Streamlit app.py) into Lean:

* money and hours are exact rationals (`ℚ`); Python floats approximate these
  values, and `round2` models Python's `round(x, 2)` (ties differ: Python
  rounds half to even, `round2` rounds half up, but no statement below
  depends on a tie);
* times of day are `Tm` records (hour, minute), matching `datetime.time`
  and the parsed `"HH:MM"` strings;
* the JSON stores become explicit lists / lookup functions passed to and
  returned from the operations; file I/O, HTTP and HTML rendering are
  dropped, keeping the data each operation computes.
-/

namespace CleaningTracker

/-- Python `round(x, 2)` on exact rationals: round to the nearest multiple
of 1/100 (half up). -/
def round2 (q : ℚ) : ℚ := (round (q * 100) : ℤ) / 100

theorem round2_exact (q : ℚ) (n : ℤ) (h1 : (n : ℚ) ≤ q * 100 + 1/2)
    (h2 : q * 100 + 1/2 < n + 1) : round2 q = (n : ℚ) / 100 := by
  unfold round2
  rw [round_eq, Int.floor_eq_iff.mpr ⟨h1, h2⟩]

theorem round2_mono {a b : ℚ} (h : a ≤ b) : round2 a ≤ round2 b := by
  unfold round2
  rw [round_eq, round_eq]
  have hf := Int.floor_mono (show a * 100 + 1/2 ≤ b * 100 + 1/2 by linarith)
  have hq : ((⌊a * 100 + 1/2⌋ : ℤ) : ℚ) ≤ ((⌊b * 100 + 1/2⌋ : ℤ) : ℚ) := by
    exact_mod_cast hf
  exact div_le_div_of_nonneg_right hq (by norm_num)

/-- Time of day, as carried by `datetime.time` / parsed `"HH:MM"` strings. -/
structure Tm where
  hour : ℕ
  minute : ℕ
deriving DecidableEq

/-- Minutes since midnight (`t.hour * 60 + t.minute` in both copies of
`calculate_hours`). -/
def toMinutes (t : Tm) : ℤ := t.hour * 60 + t.minute

/-- Embeds `calculate_hours` (helpers.py lines 96-115 and the identical
app.py lines 108-119): overnight shifts wrap past midnight. -/
def calculate_hours (start_time end_time : Tm) : ℚ :=
  let start_minutes := toMinutes start_time
  let end_minutes := toMinutes end_time
  let diff_minutes : ℤ :=
    if end_minutes < start_minutes then 24 * 60 - start_minutes + end_minutes
    else end_minutes - start_minutes
  (diff_minutes : ℚ) / 60

/-- English month names, as produced by `datetime(2000, m, 1).strftime("%B")`
for months 1-12. -/
def monthName : ℕ → String
  | 1 => "January"
  | 2 => "February"
  | 3 => "March"
  | 4 => "April"
  | 5 => "May"
  | 6 => "June"
  | 7 => "July"
  | 8 => "August"
  | 9 => "September"
  | 10 => "October"
  | 11 => "November"
  | 12 => "December"
  | _ => ""

/-- Embeds `get_tax_year_label` from helpers.py lines 125-130.  Python's
`tax_year_start_month - 1 or 12` yields 12 exactly when the subtraction
gives 0, which over the valid months 1-12 is the `tysm = 1` case. -/
def get_tax_year_label (tax_year tysm : ℕ) : String :=
  let start_month_name := monthName tysm
  let end_month := if tysm - 1 = 0 then 12 else tysm - 1
  let end_month_name := monthName end_month
  s!"{tax_year}/{tax_year + 1} ({start_month_name} {tax_year} - {end_month_name} {tax_year + 1})"

/-- Embeds the duplicated `get_tax_year_label` from app.py lines 129-132,
which reuses the start month name for the end of the range. -/
def get_tax_year_label_app (tax_year tysm : ℕ) : String :=
  let month_name := monthName tysm
  s!"{tax_year}/{tax_year + 1} ({month_name} {tax_year} - {month_name} {tax_year + 1})"

/-- Label formula as the spec words it: end month is startMonth − 1, wrapping
to December when startMonth = 1.  Stated separately from the source embedding
so the two can be compared. -/
def tax_year_label_claim (tax_year tysm : ℕ) : String :=
  let em := if tysm = 1 then 12 else tysm - 1
  s!"{tax_year}/{tax_year + 1} ({monthName tysm} {tax_year} - {monthName em} {tax_year + 1})"

/-- Embeds `calculate_hmrc_mileage_allowance` (helpers.py lines 145-153):
45p/mile for the first 10,000 miles, 25p/mile thereafter. -/
def calculate_hmrc_mileage_allowance (total_miles : ℚ) : ℚ :=
  if total_miles ≤ 10000 then round2 (total_miles * 0.45)
  else round2 (10000 * 0.45 + (total_miles - 10000) * 0.25)

/-- Stored work session record, as built by `create_entry` in webapp.py and
the Log Entry save in app.py. -/
structure Entry where
  id : String
  client_id : String
  date : String
  start_time : Tm
  end_time : Tm
  hours : ℚ
  hourly_rate : ℚ
  amount : ℚ
deriving DecidableEq

/-- Stored expense record (webapp.py `create_expense` / app.py Log Expense). -/
structure Expense where
  id : String
  client_id : String
  date : String
  amount : ℚ
  description : String
deriving DecidableEq

/-- Embeds the entry construction shared by webapp.py `create_entry`
(lines 86-97) and the app.py Log Entry save (lines 546-562): `hours` is the
rounded computed duration, `amount` is the rounded product of the unrounded
duration and the configured rate, and the rate used is stored on the record. -/
def create_entry (now_id cid d : String) (start_time end_time : Tm)
    (rate : ℚ) : Entry :=
  let hours := calculate_hours start_time end_time
  { id := now_id
    client_id := cid
    date := d
    start_time := start_time
    end_time := end_time
    hours := round2 hours
    hourly_rate := rate
    amount := round2 (hours * rate) }

/-- Totals of a report: hours, labour, expenses and their grand total. -/
structure Totals where
  hours : ℚ
  labour : ℚ
  expenses : ℚ
  total : ℚ
deriving DecidableEq

/-- Embeds the aggregation of webapp.py `monthly_report` lines 258-269 and
app.py lines 672-675: sums of the stored `hours` and `amount` fields, with
the grand total the sum of labour and expenses. -/
def totalsOf (sessions : List Entry) (expense_list : List Expense) : Totals :=
  { hours := (sessions.map Entry.hours).sum
    labour := (sessions.map Entry.amount).sum
    expenses := (expense_list.map Expense.amount).sum
    total := (sessions.map Entry.amount).sum + (expense_list.map Expense.amount).sum }

/-- Componentwise sum of totals. -/
def Totals.add (a b : Totals) : Totals :=
  { hours := a.hours + b.hours
    labour := a.labour + b.labour
    expenses := a.expenses + b.expenses
    total := a.total + b.total }

/-- Configuration fields consumed by the embedded operations (the remaining
DEFAULT_CONFIG keys are display-only strings passed through to templates). -/
structure Config where
  hourly_rate : ℚ
  tax_year_start_month : ℕ
  currency_symbol : String
  payment_terms : ℕ
  invoice_prefix : String
deriving DecidableEq

/-- Zero padding of `f"{month:02d}"` for a natural number. -/
def pad2 (n : ℕ) : String := if n < 10 then "0" ++ toString n else toString n

/-- Embeds `generate_invoice_number` (helpers.py lines 140-142):
`f"{config['invoice_prefix']}-{year}{month:02d}"`. -/
def generate_invoice_number (year month : ℕ) (config : Config) : String :=
  let pfx := Config.invoice_prefix config
  pfx ++ "-" ++ toString year ++ pad2 month

/-- Data computed by `generate_invoice_html` (helpers.py lines 160-209) and
handed to the invoice template; dates and HTML rendering are I/O and are
not modelled. -/
structure InvoiceData where
  invoice_number : String
  total_hours : ℚ
  total_labour : ℚ
  total_expenses : ℚ
  total_amount : ℚ
deriving DecidableEq

/-- Embeds the computation inside `generate_invoice_html`: the totals are
sums over the already-filtered month entries and expenses, and
`total_amount = total_labour + total_expenses`. -/
def generate_invoice_html (month_entries : List Entry)
    (month_expenses : List Expense) (selected_year selected_month : ℕ)
    (config : Config) : InvoiceData :=
  let total_hours := (month_entries.map Entry.hours).sum
  let total_labour := (month_entries.map Entry.amount).sum
  let total_expenses := (month_expenses.map Expense.amount).sum
  { invoice_number := generate_invoice_number selected_year selected_month config
    total_hours := total_hours
    total_labour := total_labour
    total_expenses := total_expenses
    total_amount := total_labour + total_expenses }

/-- JSON-representable config values (numbers and strings suffice for
DEFAULT_CONFIG). -/
inductive ConfigVal
  | str (s : String)
  | num (q : ℚ)
deriving DecidableEq

/-- Embeds DEFAULT_CONFIG (helpers.py lines 32-46). -/
def DEFAULT_CONFIG : List (String × ConfigVal) :=
  [("hourly_rate", .num 15),
   ("tax_year_start_month", .num 4),
   ("currency_symbol", .str "£"),
   ("business_name", .str "Your Name"),
   ("business_address", .str "Your Address\nCity, Postcode"),
   ("business_email", .str "your.email@example.com"),
   ("business_phone", .str "07xxx xxxxxx"),
   ("payment_terms", .num 14),
   ("bank_name", .str "Your Bank"),
   ("account_name", .str "Your Name"),
   ("sort_code", .str "00-00-00"),
   ("account_number", .str "00000000"),
   ("invoice_prefix", .str "INV")]

/-- A stored JSON object, viewed through key lookup. -/
def ConfigDict : Type := String → Option ConfigVal

/-- Embeds `load_config` (helpers.py lines 70-72, app.py lines 50-57):
the Python dict merge `{**DEFAULT_CONFIG, **stored}` — a stored key wins,
a key absent from the store falls back to DEFAULT_CONFIG. -/
def load_config (stored : ConfigDict) : ConfigDict := fun k =>
  match stored k with
  | some v => some v
  | none => DEFAULT_CONFIG.lookup k

/-- Embeds webapp.py `update_config` (lines 174-182): keys of the request
body are copied onto the loaded config only when they exist in
DEFAULT_CONFIG, and the result is saved. -/
def update_config (stored data : ConfigDict) : ConfigDict := fun k =>
  match data k, DEFAULT_CONFIG.lookup k with
  | some v, some _ => some v
  | _, _ => load_config stored k

/-- Client record. -/
structure Client where
  id : String
  name : String
  address : String
deriving DecidableEq

/-- Placeholder returned when the client list is empty (helpers.py line 84). -/
def defaultClient : Client := { id := "default", name := "Unknown", address := "" }

/-- The `for` loop of `get_client_by_id` with its early return: first client
whose id matches. -/
def findClient : List Client → String → Option Client
  | [], _ => none
  | c :: cs, cid => if c.id = cid then some c else findClient cs cid

/-- Embeds `get_client_by_id` (helpers.py lines 79-84, identical in app.py
lines 95-100): first match, else `clients[0] if clients else` a placeholder. -/
def get_client_by_id (clients : List Client) (cid : String) : Client :=
  match findClient clients cid with
  | some c => c
  | none =>
    match clients with
    | c :: _ => c
    | [] => defaultClient

/-- Items as `_filter_by_client` sees them: `e.get("client_id")` is `none`
when the key is missing. -/
structure Item where
  client_id : Option String
  label : String
deriving DecidableEq

/-- Python truthiness test `not client_id` for an optional string: true for
`None` and for the empty string. -/
def pyFalsy : Option String → Bool
  | none => true
  | some s => s == ""

/-- Embeds `_filter_by_client` (webapp.py lines 18-22): no-op when the
client id is falsy, else keep the items whose `client_id` equals it. -/
def _filter_by_client (items : List Item) (client_id : Option String) : List Item :=
  if pyFalsy client_id then items
  else items.filter (fun e => e.client_id == client_id)

/-- Filter as the spec words it (identity exactly on null/absent, equality
filter otherwise), stated separately for comparison with the source
embedding. -/
def filter_by_client_claim (items : List Item) (client_id : Option String) : List Item :=
  match client_id with
  | none => items
  | some cid => items.filter (fun e => e.client_id == some cid)

/-- Embeds webapp.py `delete_entry` (lines 103-108): keep every entry whose
id differs, save, and report `{"ok": True}`. -/
def delete_entry (entries : List Entry) (entry_id : String) : List Entry × Bool :=
  (entries.filter (fun e => e.id != entry_id), true)

/-- Embeds webapp.py `delete_expense` (lines 149-154). -/
def delete_expense (expense_list : List Expense) (expense_id : String) :
    List Expense × Bool :=
  (expense_list.filter (fun e => e.id != expense_id), true)

/-- C1 (corrected). On every created work session the stored amount is the
2-dp rounding of the product of the *unrounded* computed hours and the rate
stored on the record — not of the stored (rounded) hours field — the stored
rate is the rate passed at creation, and the aggregator reads only the
stored amount fields, never a config rate. -/
theorem create_entry_amount_spec (now_id cid d : String) (st et : Tm)
    (rate : ℚ) (sessions : List Entry) (expense_list : List Expense) :
    (create_entry now_id cid d st et rate).amount
        = round2 (calculate_hours st et * rate) ∧
    (create_entry now_id cid d st et rate).hours
        = round2 (calculate_hours st et) ∧
    (create_entry now_id cid d st et rate).hourly_rate = rate ∧
    (totalsOf sessions expense_list).labour = (sessions.map Entry.amount).sum := by
  exact ⟨rfl, rfl, rfl, rfl⟩

/-- C1, counterexample to the claim as stated: for a 09:00-09:50 session at
rate 15 the stored fields are hours = 0.83 and amount = 12.50, but
round(0.83 × 15, 2) = 12.45, so the stored amount is not the rounded
product of the stored hours and the stored rate. -/
theorem create_entry_amount_counterexample :
    (create_entry "e1" "c1" "2024-01-01" ⟨9, 0⟩ ⟨9, 50⟩ 15).amount ≠
      round2 ((create_entry "e1" "c1" "2024-01-01" ⟨9, 0⟩ ⟨9, 50⟩ 15).hours *
        (create_entry "e1" "c1" "2024-01-01" ⟨9, 0⟩ ⟨9, 50⟩ 15).hourly_rate) := by
  have hch : calculate_hours ⟨9, 0⟩ ⟨9, 50⟩ = 5/6 := by
    norm_num [calculate_hours, toMinutes]
  have h2 : round2 (5/6) = 83/100 := by
    rw [round2_exact (5/6) 83 (by norm_num) (by norm_num)]
    norm_num
  have h1 : round2 (5/6 * 15) = 25/2 := by
    rw [round2_exact (5/6 * 15) 1250 (by norm_num) (by norm_num)]
    norm_num
  have h3 : round2 ((83:ℚ)/100 * 15) = 249/20 := by
    rw [round2_exact ((83:ℚ)/100 * 15) 1245 (by norm_num) (by norm_num)]
    norm_num
  simp only [create_entry, hch, h2]
  rw [h1, h3]
  norm_num

/-- C2 (confirmed). For valid times of day, `calculate_hours` is the minute
difference over 60 when end ≥ start, wraps past midnight when end < start,
always lands in [0, 24), and maps 23:00-01:00 to 2 hours. -/
theorem calculate_hours_spec (s e : Tm) (hs : s.hour ≤ 23) (hsm : s.minute ≤ 59)
    (he : e.hour ≤ 23) (hem : e.minute ≤ 59) :
    (toMinutes s ≤ toMinutes e →
      calculate_hours s e = ((toMinutes e : ℚ) - toMinutes s) / 60) ∧
    (toMinutes e < toMinutes s →
      calculate_hours s e = (24 * 60 - (toMinutes s : ℚ) + toMinutes e) / 60) ∧
    0 ≤ calculate_hours s e ∧ calculate_hours s e < 24 ∧
    calculate_hours ⟨23, 0⟩ ⟨1, 0⟩ = 2 := by
  have hs1 : toMinutes s ≤ 1439 := by unfold toMinutes; omega
  have he1 : toMinutes e ≤ 1439 := by unfold toMinutes; omega
  have hs0 : 0 ≤ toMinutes s := by unfold toMinutes; omega
  have he0 : 0 ≤ toMinutes e := by unfold toMinutes; omega
  simp only [calculate_hours]
  refine ⟨fun h => ?_, fun h => ?_, ?_, ?_, by norm_num [toMinutes]⟩
  · rw [if_neg (by omega)]
    push_cast
    ring
  · rw [if_pos h]
    push_cast
    ring
  · split_ifs with h
    · apply div_nonneg _ (by norm_num)
      exact_mod_cast (by omega : (0:ℤ) ≤ 24 * 60 - toMinutes s + toMinutes e)
    · apply div_nonneg _ (by norm_num)
      exact_mod_cast (by omega : (0:ℤ) ≤ toMinutes e - toMinutes s)
  · split_ifs with h
    · rw [div_lt_iff₀ (by norm_num)]
      exact_mod_cast (by omega : 24 * 60 - toMinutes s + toMinutes e < 24 * 60)
    · rw [div_lt_iff₀ (by norm_num)]
      exact_mod_cast (by omega : toMinutes e - toMinutes s < 24 * 60)

/-- C2, witness: the theorem instantiated at the overnight pair 23:00-01:00. -/
theorem calculate_hours_spec_witness :
    0 ≤ calculate_hours ⟨23, 0⟩ ⟨1, 0⟩ ∧ calculate_hours ⟨23, 0⟩ ⟨1, 0⟩ < 24 ∧
    calculate_hours ⟨23, 0⟩ ⟨1, 0⟩ = 2 := by
  have h := calculate_hours_spec ⟨23, 0⟩ ⟨1, 0⟩ (by norm_num) (by norm_num)
    (by norm_num) (by norm_num)
  exact ⟨h.2.2.1, h.2.2.2.1, h.2.2.2.2⟩

/-- C3 (confirmed). The mileage allowance follows the two HMRC tiers, gives
4500.00 at 10,000 miles and 5000.00 at 12,000, agrees with the upper-tier
formula at the 10,000 boundary, and is monotone non-decreasing. -/
theorem mileage_allowance_spec (m1 m2 : ℚ) (h0 : 0 ≤ m1) (h12 : m1 ≤ m2) :
    (m1 ≤ 10000 → calculate_hmrc_mileage_allowance m1 = round2 (m1 * 0.45)) ∧
    (10000 < m1 → calculate_hmrc_mileage_allowance m1
        = round2 (10000 * 0.45 + (m1 - 10000) * 0.25)) ∧
    calculate_hmrc_mileage_allowance 10000 = 4500 ∧
    calculate_hmrc_mileage_allowance 12000 = 5000 ∧
    round2 (10000 * 0.45 + ((10000 : ℚ) - 10000) * 0.25)
        = calculate_hmrc_mileage_allowance 10000 ∧
    calculate_hmrc_mileage_allowance m1 ≤ calculate_hmrc_mileage_allowance m2 := by
  have hb : calculate_hmrc_mileage_allowance 10000 = 4500 := by
    unfold calculate_hmrc_mileage_allowance
    rw [if_pos (by norm_num),
      round2_exact ((10000:ℚ) * 0.45) 450000 (by norm_num) (by norm_num)]
    norm_num
  refine ⟨fun h => ?_, fun h => ?_, hb, ?_, ?_, ?_⟩
  · unfold calculate_hmrc_mileage_allowance
    rw [if_pos h]
  · unfold calculate_hmrc_mileage_allowance
    rw [if_neg (not_le.mpr h)]
  · unfold calculate_hmrc_mileage_allowance
    rw [if_neg (by norm_num),
      round2_exact ((10000:ℚ) * 0.45 + (12000 - 10000) * 0.25) 500000
        (by norm_num) (by norm_num)]
    norm_num
  · rw [hb, round2_exact ((10000:ℚ) * 0.45 + ((10000 : ℚ) - 10000) * 0.25) 450000
      (by norm_num) (by norm_num)]
    norm_num
  · unfold calculate_hmrc_mileage_allowance
    split_ifs with ha hc hc
    · exact round2_mono (by linarith)
    · exact round2_mono (by linarith)
    · exact absurd (le_trans h12 hc) ha
    · exact round2_mono (by linarith)

/-- C3, witness: the theorem instantiated at 10,000 and 12,000 miles. -/
theorem mileage_allowance_spec_witness :
    calculate_hmrc_mileage_allowance 10000 = 4500 ∧
    calculate_hmrc_mileage_allowance 12000 = 5000 ∧
    calculate_hmrc_mileage_allowance 10000 ≤ calculate_hmrc_mileage_allowance 12000 := by
  have h := mileage_allowance_spec 10000 12000 (by norm_num) (by norm_num)
  exact ⟨h.2.2.1, h.2.2.2.1, h.2.2.2.2.2⟩

/-- C4 (code_bug). The helpers.py label matches the spec formula — end month
is startMonth − 1, wrapping to December when startMonth = 1, so start month
April is paired with end month March — while the stale duplicate in app.py
repeats the start month name, so at fiscal year 2024 and start month 4 it
emits "April 2024 - April 2025" instead of "April 2024 - March 2025". -/
theorem tax_year_label_spec :
    (∀ fy sm, 1 ≤ sm → sm ≤ 12 →
      get_tax_year_label fy sm = tax_year_label_claim fy sm) ∧
    get_tax_year_label 2024 4 = "2024/2025 (April 2024 - March 2025)" ∧
    get_tax_year_label_app 2024 4 = "2024/2025 (April 2024 - April 2025)" ∧
    get_tax_year_label_app 2024 4 ≠ tax_year_label_claim 2024 4 := by
  refine ⟨fun fy sm h1 h2 => ?_, by decide, by decide, by decide⟩
  interval_cases sm <;> rfl

/-- C4, witness: the helpers.py label agrees with the spec formula at
fiscal year 2024, start month 4. -/
theorem tax_year_label_spec_witness :
    get_tax_year_label 2024 4 = tax_year_label_claim 2024 4 :=
  tax_year_label_spec.1 2024 4 (by norm_num) (by norm_num)

/-- C5 (confirmed). The totals computation is a list homomorphism: empty
inputs give all-zero totals, and for any partition of the sessions and the
expenses into two sublists (any interleaving, captured by permutation onto
an append), totals of the union equal the componentwise sum of the totals
of the parts. -/
theorem totals_additive (s s1 s2 : List Entry) (e e1 e2 : List Expense)
    (hs : s.Perm (s1 ++ s2)) (he : e.Perm (e1 ++ e2)) :
    totalsOf s e = Totals.add (totalsOf s1 e1) (totalsOf s2 e2) ∧
    totalsOf [] [] = { hours := 0, labour := 0, expenses := 0, total := 0 } := by
  constructor
  · have h1 := (hs.map Entry.hours).sum_eq
    have h2 := (hs.map Entry.amount).sum_eq
    have h3 := (he.map Expense.amount).sum_eq
    simp only [List.map_append, List.sum_append] at h1 h2 h3
    simp only [totalsOf, Totals.add, Totals.mk.injEq]
    exact ⟨h1, h2, h3, by rw [h2, h3]; ring⟩
  · simp [totalsOf]

/-- C5, witness: a two-session, one-expense store split into its two
singleton parts. -/
theorem totals_additive_witness :
    totalsOf
      [{ id := "a", client_id := "c", date := "2024-01-05", start_time := ⟨9, 0⟩,
         end_time := ⟨10, 0⟩, hours := 1, hourly_rate := 15, amount := 15 },
       { id := "b", client_id := "c", date := "2024-01-06", start_time := ⟨9, 0⟩,
         end_time := ⟨11, 0⟩, hours := 2, hourly_rate := 15, amount := 30 }]
      [{ id := "x", client_id := "c", date := "2024-01-07", amount := 5,
         description := "Cleaning supplies" }]
    = Totals.add
      (totalsOf
        [{ id := "a", client_id := "c", date := "2024-01-05", start_time := ⟨9, 0⟩,
           end_time := ⟨10, 0⟩, hours := 1, hourly_rate := 15, amount := 15 }]
        [{ id := "x", client_id := "c", date := "2024-01-07", amount := 5,
           description := "Cleaning supplies" }])
      (totalsOf
        [{ id := "b", client_id := "c", date := "2024-01-06", start_time := ⟨9, 0⟩,
           end_time := ⟨11, 0⟩, hours := 2, hourly_rate := 15, amount := 30 }]
        []) :=
  (totals_additive
    [{ id := "a", client_id := "c", date := "2024-01-05", start_time := ⟨9, 0⟩,
       end_time := ⟨10, 0⟩, hours := 1, hourly_rate := 15, amount := 15 },
     { id := "b", client_id := "c", date := "2024-01-06", start_time := ⟨9, 0⟩,
       end_time := ⟨11, 0⟩, hours := 2, hourly_rate := 15, amount := 30 }]
    [{ id := "a", client_id := "c", date := "2024-01-05", start_time := ⟨9, 0⟩,
       end_time := ⟨10, 0⟩, hours := 1, hourly_rate := 15, amount := 15 }]
    [{ id := "b", client_id := "c", date := "2024-01-06", start_time := ⟨9, 0⟩,
       end_time := ⟨11, 0⟩, hours := 2, hourly_rate := 15, amount := 30 }]
    [{ id := "x", client_id := "c", date := "2024-01-07", amount := 5,
       description := "Cleaning supplies" }]
    [{ id := "x", client_id := "c", date := "2024-01-07", amount := 5,
       description := "Cleaning supplies" }]
    []
    (List.Perm.refl _) (List.Perm.refl _)).1

/-- C6 (confirmed). The invoice carries exactly the aggregated totals of its
input lists, its grand total is labour plus expenses, and the invoice number
is the configured prefix, a dash, the year and the zero-padded month —
"INV-202403" for March 2024 with prefix "INV". -/
theorem invoice_spec (month_entries : List Entry) (month_expenses : List Expense)
    (y m : ℕ) (config : Config) :
    (generate_invoice_html month_entries month_expenses y m config).total_hours
        = (totalsOf month_entries month_expenses).hours ∧
    (generate_invoice_html month_entries month_expenses y m config).total_labour
        = (totalsOf month_entries month_expenses).labour ∧
    (generate_invoice_html month_entries month_expenses y m config).total_expenses
        = (totalsOf month_entries month_expenses).expenses ∧
    (generate_invoice_html month_entries month_expenses y m config).total_amount
        = (totalsOf month_entries month_expenses).total ∧
    (generate_invoice_html month_entries month_expenses y m config).total_amount
        = (generate_invoice_html month_entries month_expenses y m config).total_labour
          + (generate_invoice_html month_entries month_expenses y m config).total_expenses ∧
    (generate_invoice_html month_entries month_expenses y m config).invoice_number
        = generate_invoice_number y m config ∧
    generate_invoice_number y m config
        = Config.invoice_prefix config ++ "-" ++ toString y ++ pad2 m ∧
    generate_invoice_number 2024 3
        { hourly_rate := 15, tax_year_start_month := 4, currency_symbol := "£",
          payment_terms := 14, invoice_prefix := "INV" } = "INV-202403" :=
  ⟨rfl, rfl, rfl, rfl, rfl, rfl, rfl, by decide⟩

/-- C7 (corrected). Loading overlays the stored object on the defaults:
keys absent from the store fall back to DEFAULT_CONFIG and stored keys win —
but a stored key outside DEFAULT_CONFIG is *kept* by the merge, not dropped;
it is `update_config` that ignores unknown keys, leaving the loaded value. -/
theorem load_config_spec (stored : ConfigDict) (k : String) :
    (stored k = none → load_config stored k = DEFAULT_CONFIG.lookup k) ∧
    (∀ v, stored k = some v → load_config stored k = some v) ∧
    (∀ data : ConfigDict, DEFAULT_CONFIG.lookup k = none →
      update_config stored data k = load_config stored k) := by
  refine ⟨fun h => ?_, fun v h => ?_, fun data h => ?_⟩
  · simp [load_config, h]
  · simp [load_config, h]
  · rcases hdk : data k with _ | v <;> simp [update_config, h, hdk]

/-- C7, witness: with an empty store every key, here "hourly_rate", resolves
to its documented default. -/
theorem load_config_spec_witness :
    load_config (fun _ => none) "hourly_rate" = DEFAULT_CONFIG.lookup "hourly_rate" :=
  (load_config_spec (fun _ => none) "hourly_rate").1 rfl

/-- C7, counterexample to the claim as stated: "custom_theme" is not a
DEFAULT_CONFIG key, yet a store carrying it yields a loaded config in which
it still appears — unknown stored keys are not ignored on load. -/
theorem load_config_counterexample :
    DEFAULT_CONFIG.lookup "custom_theme" = none ∧
    load_config
        (fun k => if k = "custom_theme" then some (ConfigVal.str "dark") else none)
        "custom_theme" = some (ConfigVal.str "dark") := by
  exact ⟨by decide, rfl⟩

/-- C8 (corrected). The client filter is the identity when the client id is
`none` — and also when it is the *empty string*, Python falsiness the claim
does not cover — while for every non-empty id it keeps exactly the items
whose `client_id` equals it; the result is always a sublist of the input,
so relative order is preserved. -/
theorem filter_by_client_spec (items : List Item) (cid : Option String) :
    _filter_by_client items none = items ∧
    _filter_by_client items (some "") = items ∧
    (∀ s, s ≠ "" → _filter_by_client items (some s)
        = items.filter (fun e => e.client_id == some s)) ∧
    (_filter_by_client items cid).Sublist items := by
  refine ⟨rfl, rfl, fun s hs => ?_, ?_⟩
  · have hb : (s == "") = false := beq_eq_false_iff_ne.mpr hs
    simp [_filter_by_client, pyFalsy, hb]
  · unfold _filter_by_client
    split_ifs with h
    · exact List.Sublist.refl _
    · exact List.filter_sublist _

/-- C8, witness: a non-empty client id filters by equality on `client_id`. -/
theorem filter_by_client_spec_witness :
    _filter_by_client [{ client_id := some "a", label := "x" }] (some "a")
        = List.filter (fun e => e.client_id == some "a")
            [{ client_id := some "a", label := "x" }] :=
  (filter_by_client_spec [{ client_id := some "a", label := "x" }] (some "a")).2.2.1
    "a" (by decide)

/-- C8, counterexample to the claim as stated: for the present-but-empty id
`some ""` the code returns the list unchanged, while the claimed equality
filter would return no items (none has `client_id = some ""`). -/
theorem filter_by_client_counterexample :
    _filter_by_client [{ client_id := some "a", label := "x" }] (some "")
        = [{ client_id := some "a", label := "x" }] ∧
    filter_by_client_claim [{ client_id := some "a", label := "x" }] (some "") = [] :=
  ⟨rfl, rfl⟩

theorem findClient_eq (clients : List Client) (cid : String) :
    findClient clients cid = clients.find? (fun c => c.id == cid) := by
  induction clients with
  | nil => rfl
  | cons c cs ih =>
    by_cases h : c.id = cid
    · simp [findClient, List.find?, h]
    · have hb : (c.id == cid) = false := beq_eq_false_iff_ne.mpr h
      simp [findClient, List.find?, h, hb, ih]

/-- C9 (confirmed). `get_client_by_id` is total: it returns the first client
whose id matches, falls back to the head of the list when no id matches, and
on an empty list returns the built-in placeholder client. -/
theorem get_client_by_id_spec (clients : List Client) (cid : String) :
    (∀ c, clients.find? (fun c => c.id == cid) = some c →
      get_client_by_id clients cid = c) ∧
    (clients.find? (fun c => c.id == cid) = none →
      get_client_by_id clients cid = clients.headD defaultClient) ∧
    get_client_by_id [] cid = defaultClient := by
  refine ⟨fun c hc => ?_, fun hn => ?_, rfl⟩
  · unfold get_client_by_id
    rw [findClient_eq, hc]
  · unfold get_client_by_id
    rw [findClient_eq, hn]
    cases clients <;> rfl

/-- C9, witness: an unmatched id on a one-client list falls back to that
first client rather than failing. -/
theorem get_client_by_id_spec_witness :
    get_client_by_id [{ id := "c1", name := "Alice", address := "A" }] "zzz"
        = List.headD [{ id := "c1", name := "Alice", address := "A" }] defaultClient :=
  (get_client_by_id_spec [{ id := "c1", name := "Alice", address := "A" }] "zzz").2.1
    (by decide)

/-- C10 (confirmed). Deleting by id removes exactly the records whose id
equals the given one: every survivor has a different id, survivors keep
their relative order (sublist), every record with a different id survives,
a store with no matching id is returned unchanged, and the operation
reports success in every case — for entries and for expenses alike. -/
theorem delete_by_id_spec (entries : List Entry) (expense_list : List Expense)
    (eid xid : String) :
    (∀ e ∈ (delete_entry entries eid).1, e.id ≠ eid) ∧
    ((delete_entry entries eid).1.Sublist entries) ∧
    (∀ e ∈ entries, e.id ≠ eid → e ∈ (delete_entry entries eid).1) ∧
    ((∀ e ∈ entries, e.id ≠ eid) → delete_entry entries eid = (entries, true)) ∧
    ((delete_entry entries eid).2 = true) ∧
    (∀ x ∈ (delete_expense expense_list xid).1, x.id ≠ xid) ∧
    ((delete_expense expense_list xid).1.Sublist expense_list) ∧
    (∀ x ∈ expense_list, x.id ≠ xid → x ∈ (delete_expense expense_list xid).1) ∧
    ((∀ x ∈ expense_list, x.id ≠ xid) →
      delete_expense expense_list xid = (expense_list, true)) ∧
    ((delete_expense expense_list xid).2 = true) := by
  refine ⟨?_, List.filter_sublist _, ?_, ?_, rfl, ?_, List.filter_sublist _, ?_, ?_, rfl⟩
  · intro e he
    simp only [delete_entry, List.mem_filter, bne_iff_ne] at he
    exact he.2
  · intro e he hne
    simp only [delete_entry, List.mem_filter, bne_iff_ne]
    exact ⟨he, hne⟩
  · intro hall
    simp only [delete_entry, Prod.mk.injEq]
    refine ⟨List.filter_eq_self.mpr fun e he => ?_, trivial⟩
    simpa [bne_iff_ne] using hall e he
  · intro x hx
    simp only [delete_expense, List.mem_filter, bne_iff_ne] at hx
    exact hx.2
  · intro x hx hne
    simp only [delete_expense, List.mem_filter, bne_iff_ne]
    exact ⟨hx, hne⟩
  · intro hall
    simp only [delete_expense, Prod.mk.injEq]
    refine ⟨List.filter_eq_self.mpr fun x hx => ?_, trivial⟩
    simpa [bne_iff_ne] using hall x hx

/-- C10, witness: deleting an id that matches nothing leaves the single-entry
store unchanged and still reports success. -/
theorem delete_by_id_spec_witness :
    delete_entry
      [{ id := "a", client_id := "c", date := "2024-01-05", start_time := ⟨9, 0⟩,
         end_time := ⟨10, 0⟩, hours := 1, hourly_rate := 15, amount := 15 }] "zzz"
    = ([{ id := "a", client_id := "c", date := "2024-01-05", start_time := ⟨9, 0⟩,
          end_time := ⟨10, 0⟩, hours := 1, hourly_rate := 15, amount := 15 }], true) :=
  (delete_by_id_spec
    [{ id := "a", client_id := "c", date := "2024-01-05", start_time := ⟨9, 0⟩,
       end_time := ⟨10, 0⟩, hours := 1, hourly_rate := 15, amount := 15 }]
    [] "zzz" "w").2.2.2.1 (by decide)

end CleaningTracker
